import Mathlib

/-!
Shallow embedding of the autokr subtitle pipeline (Python) in Lean 4.

Sources embedded:
- `src/subtitle_gen.py` (`SubtitleGenerator`): SRT/SMI serialization,
  timestamp formatting, format dispatch, error wrapping.
- `src/translator.py` (`Translator`): batched segment translation with the
  translation model treated as a black-box text-to-text function, and the
  fallback path that keeps the original text when translation fails.
- `src/audio_extractor.py` (`AudioExtractor.cleanup`): glob-based deletion
  of temporary audio files.
- `src/cli.py` (`main`): overwrite prompt, the five-step pipeline with its
  failure handling and success-path cleanup.

Python floats are modelled as rationals; Python exceptions are modelled as
an explicit error type whose constructors correspond to the raise sites,
tagged with the exception class (`ValueError` vs `IOError`) they carry.
File writes are modelled by returning the file content (the joined lines),
so "no file produced" corresponds to returning an error.
-/

namespace AutoKR

/-! ## Python string and numeric primitives -/

/-- ASCII lowercasing of one character, as `str.lower` acts on `A`-`Z`. -/
def lowerChar (c : Char) : Char :=
  if 65 ≤ c.toNat ∧ c.toNat ≤ 90 then Char.ofNat (c.toNat + 32) else c

/-- Python `str.lower` (restricted to its ASCII action, which covers every
format identifier and prompt response the program compares against). -/
def pyLower (s : String) : String := ⟨s.data.map lowerChar⟩

/-- Python `str.strip`: drop leading and trailing whitespace. -/
def pyStrip (s : String) : String :=
  ⟨((s.data.dropWhile Char.isWhitespace).reverse.dropWhile Char.isWhitespace).reverse⟩

/-- Python `%` on numbers (result has the sign of the divisor; here the
divisor is always positive). -/
def pymod (a b : ℚ) : ℚ := a - b * ⌊a / b⌋

/-- Python `int()` on a number: truncation toward zero. -/
def pyInt (q : ℚ) : ℤ := if q < 0 then ⌈q⌉ else ⌊q⌋

/-- Python `round()` on a number: round half to even (banker's rounding). -/
def pyRoundHalfEven (q : ℚ) : ℤ :=
  if q - ⌊q⌋ < 1/2 then ⌊q⌋
  else if (1:ℚ)/2 < q - ⌊q⌋ then ⌊q⌋ + 1
  else if ⌊q⌋ % 2 = 0 then ⌊q⌋ else ⌊q⌋ + 1

/-- Python `f"{n:0wd}"`: decimal rendering zero-padded to width `w`, with
zeros inserted between an eventual sign and the digits. -/
def zfill (w : Nat) (n : ℤ) : String :=
  let sign := if n < 0 then "-" else ""
  let digits := toString n.natAbs
  sign ++ String.mk (List.replicate (w - (sign.length + digits.length)) '0') ++ digits

/-- `datetime.timedelta(seconds=s).total_seconds()`: the duration is stored
as a whole number of microseconds (fractional microseconds rounded half to
even), then converted back to seconds. -/
def totalSeconds (s : ℚ) : ℚ := (pyRoundHalfEven (s * 1000000) : ℚ) / 1000000

/-! ## Data model: segment records

A raw segment models a JSON/dict record whose required keys may be absent;
`Seg` models a transcription-stage record (all fields present) and `TSeg` a
translation-stage record carrying the `original` field. -/

structure RawSegment where
  start : Option ℚ
  endSec : Option ℚ
  text : Option String
deriving DecidableEq, Repr

structure Seg where
  start : ℚ
  endSec : ℚ
  text : String
deriving DecidableEq, Repr

structure TSeg where
  start : ℚ
  endSec : ℚ
  text : String
  original : String
deriving DecidableEq, Repr

def Seg.toRaw (s : Seg) : RawSegment := ⟨some s.start, some s.endSec, some s.text⟩

def TSeg.toRaw (s : TSeg) : RawSegment := ⟨some s.start, some s.endSec, some s.text⟩

/-- Forget the `original` field (the serializer only reads the three
required keys). -/
def TSeg.toSeg (s : TSeg) : Seg := ⟨s.start, s.endSec, s.text⟩

/-! ## Errors

One constructor per raise site of the embedded code, each tagged by the
Python exception class it instantiates. The `ioErrorSrt`/`ioErrorSmi`
constructors model the blanket `except Exception` handlers in
`generate_srt`/`generate_smi` that re-raise any inner exception as
`IOError`. -/

inductive PyErr where
  /-- `ValueError("빈 세그먼트 리스트입니다")` -/
  | emptyInput
  /-- `ValueError` for a segment lacking a required field in `generate_srt`
  (the 1-based index is part of the message). -/
  | missingField (idx : Nat)
  /-- `ValueError` for a segment lacking a required field in `generate_smi`. -/
  | missingFieldSmi
  /-- `ValueError("지원하지 않는 포맷: ...")`, carrying the lowered format. -/
  | unsupportedFormat (fmt : String)
  /-- `IOError("SRT 파일 생성 실패: ...")` wrapping an inner exception. -/
  | ioErrorSrt (cause : PyErr)
  /-- `IOError("SMI 파일 생성 실패: ...")` wrapping an inner exception. -/
  | ioErrorSmi (cause : PyErr)
deriving DecidableEq, Repr

def PyErr.isIOError : PyErr → Bool
  | .ioErrorSrt _ => true
  | .ioErrorSmi _ => true
  | _ => false

def PyErr.isValueError (e : PyErr) : Bool := !e.isIOError

/-! ## SubtitleGenerator (`src/subtitle_gen.py`) -/

namespace SubtitleGenerator

/-- `SubtitleGenerator._format_timestamp_srt`: seconds go through
`timedelta` (whole-microsecond storage), then hours, minutes, seconds and
milliseconds are extracted with `//`, `%` and `int()` and zero-padded. -/
def format_timestamp_srt (seconds : ℚ) : String :=
  let ts := totalSeconds seconds
  zfill 2 ⌊ts / 3600⌋ ++ ":" ++ zfill 2 ⌊pymod ts 3600 / 60⌋ ++ ":" ++
    zfill 2 (pyInt (pymod ts 60)) ++ "," ++ zfill 3 (pyInt (pymod ts 1 * 1000))

/-- `SubtitleGenerator._format_timestamp_smi`: `int(seconds * 1000)`. -/
def format_timestamp_smi (seconds : ℚ) : ℤ := pyInt (seconds * 1000)

/-- The `for idx, segment in enumerate(segments, start=1)` loop body of
`generate_srt`: validates required fields, then emits the four lines of one
SRT block (index, timing line, stripped text, blank separator). -/
def srtBody : Nat → List RawSegment → Except PyErr (List String)
  | _, [] => .ok []
  | idx, seg :: rest =>
    match seg.start, seg.endSec, seg.text with
    | some st, some en, some tx =>
      match srtBody (idx + 1) rest with
      | .ok lines =>
        .ok ([toString idx,
              format_timestamp_srt st ++ " --> " ++ format_timestamp_srt en,
              pyStrip tx, ""] ++ lines)
      | .error e => .error e
    | _, _, _ => .error (.missingField idx)

/-- `SubtitleGenerator.generate_srt`: rejects an empty list with
`ValueError`, then runs the block loop inside `try`; any exception raised
there is re-raised as `IOError`. The produced value is the list of lines
written to the output file. -/
def generate_srt (segs : List RawSegment) : Except PyErr (List String) :=
  if segs.isEmpty then .error .emptyInput
  else
    match srtBody 1 segs with
    | .ok lines => .ok lines
    | .error e => .error (.ioErrorSrt e)

/-- The fixed SMI document header and style block of `generate_smi`. -/
def smiHeader : List String :=
  ["<SAMI>",
   "<HEAD>",
   "<TITLE>AutoKR Subtitle</TITLE>",
   "<STYLE TYPE=\"text/css\">",
   "<!--",
   "P \x7b margin-left:8pt; margin-right:8pt; margin-bottom:2pt;",
   "    margin-top:2pt; font-size:20pt; text-align:center;",
   "    font-family:굴림, Arial; font-weight:normal; color:white; \x7d",
   ".KRCC \x7b Name:한국어; lang:ko-KR; SAMIType:CC; \x7d",
   "-->",
   "</STYLE>",
   "</HEAD>",
   "<BODY>",
   ""]

/-- The per-segment loop body of `generate_smi`: validates required fields,
then emits the opening sync block with the stripped text and the closing
sync block with the `&nbsp;` placeholder. -/
def smiBody : List RawSegment → Except PyErr (List String)
  | [] => .ok []
  | seg :: rest =>
    match seg.start, seg.endSec, seg.text with
    | some st, some en, some tx =>
      match smiBody rest with
      | .ok lines =>
        .ok (["<SYNC Start=" ++ toString (format_timestamp_smi st) ++ ">",
              "<P Class=KRCC>", pyStrip tx, "</P>",
              "<SYNC Start=" ++ toString (format_timestamp_smi en) ++ ">",
              "<P Class=KRCC>&nbsp;</P>", ""] ++ lines)
      | .error e => .error e
    | _, _, _ => .error .missingFieldSmi

/-- `SubtitleGenerator.generate_smi`: rejects an empty list with
`ValueError`, then builds header, per-segment blocks and footer inside
`try`; any exception raised there is re-raised as `IOError`. -/
def generate_smi (segs : List RawSegment) : Except PyErr (List String) :=
  if segs.isEmpty then .error .emptyInput
  else
    match smiBody segs with
    | .ok body => .ok (smiHeader ++ body ++ ["</BODY>", "</SAMI>"])
    | .error e => .error (.ioErrorSmi e)

/-- `SubtitleGenerator.generate`: lowercases the format identifier, then
dispatches to the SRT or SMI generator, or raises `ValueError` for an
unsupported format (the message carries the lowered identifier). -/
def generate (segs : List RawSegment) (format : String) : Except PyErr (List String) :=
  let f := pyLower format
  if f = "srt" then generate_srt segs
  else if f = "smi" then generate_smi segs
  else .error (.unsupportedFormat f)

end SubtitleGenerator

/-! ## Translator (`src/translator.py`) -/

namespace Translator

/-- One iteration of the `for i in range(0, total, batch_size)` loop of
`translate_segments`, applied to a batch slice: the batch's texts are sent
to the model (black-box `tr`, one output text per input text), and the
results are zipped back with the batch, producing records with unchanged
`start`/`end`, stripped translated `text`, and `original` set to the input
text. -/
def translateBatch (tr : String → String) (batch : List Seg) : List TSeg :=
  (batch.zip (batch.map (fun s => tr s.text))).map
    (fun p => ⟨p.1.start, p.1.endSec, pyStrip p.2, p.1.text⟩)

/-- The batch slicing `segments[i:i+batch_size]` for `i = 0, bs, 2*bs, ...`,
expressed with fuel (the list length bounds the number of slices whenever
`bs ≥ 1`). -/
def chunksAux (bs : Nat) : Nat → List α → List (List α)
  | 0, _ => []
  | _, [] => []
  | fuel + 1, l@(_ :: _) => l.take bs :: chunksAux bs fuel (l.drop bs)

def chunks (bs : Nat) (l : List α) : List (List α) := chunksAux bs l.length l

/-- `Translator.translate_segments`: empty input short-circuits to `[]`;
otherwise the segments are processed in batches of `bs` in order and the
per-batch results are concatenated in order. -/
def translate_segments (tr : String → String) (bs : Nat) (segs : List Seg) : List TSeg :=
  if segs.isEmpty then []
  else ((chunks bs segs).map (translateBatch tr)).flatten

/-- The record built by the `except` branch of `translate_with_fallback`
for one input segment: original text passed through. -/
def fallbackSeg (s : Seg) : TSeg := ⟨s.start, s.endSec, s.text, s.text⟩

/-- `Translator.translate_with_fallback`: the surrounding `try` either
returns the result of the `translate_segments` call (modelled by the
`attempt` argument, since failure originates inside the black-box model),
or, on any exception, returns the segments with their original text kept
(`text == original`). -/
def translate_with_fallback (attempt : Except String (List TSeg)) (segs : List Seg) :
    List TSeg :=
  match attempt with
  | .ok res => res
  | .error _ => segs.map fallbackSeg

end Translator

/-! ## AudioExtractor (`src/audio_extractor.py`) -/

namespace AudioExtractor

/-- `fnmatch`-style glob matching over characters: `*` matches any
(possibly empty) run of characters, every other pattern character matches
itself. Only the features exercised by the pattern `audio.*` are relevant;
this is the general literal/`*` semantics. -/
def globMatch : List Char → List Char → Bool
  | [], s => s.isEmpty
  | p :: ps, s =>
    if p = '*' then
      match s with
      | [] => globMatch ps []
      | _ :: cs => globMatch ps s || globMatch (p :: ps) cs
    else
      match s with
      | [] => false
      | c :: cs => (p == c) && globMatch ps cs
termination_by p s => (p.length, s.length)

/-- `AudioExtractor.cleanup`: unlink every entry of the output directory
matching the glob `audio.*`; the value is the directory contents after the
deletions. -/
def cleanup (files : List String) : List String :=
  files.filter (fun n => !globMatch "audio.*".data n.data)

end AudioExtractor

/-! ## CLI pipeline controller (`src/cli.py`, `src/worker_translate.py`) -/

/-- The overwrite confirmation gate of `cli.main`: when the resolved output
path exists, any response other than `y`/`Y` prints the cancellation
message and exits with status 0. `.error (code, msg)` models `sys.exit`. -/
def overwrite_check (outputExists : Bool) (response : String) :
    Except (Nat × String) Unit :=
  if outputExists then
    if pyLower response ≠ "y" then .error (0, "작업이 취소되었습니다.") else .ok ()
  else .ok ()

/-- Results of the three external collaborators of the pipeline, each a
black box that either succeeds or raises: audio extraction, the
transcription worker (whose snapshot the controller reads back), and the
`translate_segments` call inside the translation worker. -/
structure Collabs where
  extract : Except String Unit
  transcribe : Except String (List Seg)
  translateAttempt : Except String (List TSeg)

/-- The per-run configuration the controller reads (subtitle format,
`--keep-audio`).

`useFallback` is Modelled from the spec: §4.2 describes the fallback as "a
policy choice exposed as a flag on the Translator collaborator"; the
shipped `worker_translate.py` calls `translate_segments` directly, so the
flag that selects `translate_with_fallback` inside the translation stage is
not present in the source and is taken from the spec's words. -/
structure RunConfig where
  format : String
  keepAudio : Bool
  useFallback : Bool

/-- The translation stage as run by `worker_translate.main`: an empty
segment list writes `[]` and exits 0; otherwise the stage returns the
result of the translation call — through `translate_with_fallback` when the
(spec-modelled) fallback flag is set, in which case it cannot fail. -/
def workerTranslate (useFallback : Bool) (attempt : Except String (List TSeg))
    (segs : List Seg) : Except String (List TSeg) :=
  if segs.isEmpty then .ok []
  else if useFallback then .ok (Translator.translate_with_fallback attempt segs)
  else attempt

inductive RunOutcome where
  | done
  | failed
deriving DecidableEq, Repr

/-- Observable result of one `cli.main` run: terminal state, process exit
code, the contents of the `temp` directory when the run returns, and the
subtitle file content (`none` when no subtitle file was produced). -/
structure RunResult where
  outcome : RunOutcome
  exitCode : Nat
  tempFiles : List String
  output : Option (List String)
deriving DecidableEq, Repr

/-- The `try` block of `cli.main`: extract audio (`temp/audio.wav`), run the
transcription worker (`temp/transcription.json`), run the translation
worker (`temp/translation.json`), serialize, then — only on this success
path — delete the temporary audio (unless `--keep-audio`) and the two
interchange snapshots. The `except` handler prints the error and exits 1
without touching the files accumulated so far. -/
def runPipeline (cfg : RunConfig) (c : Collabs) : RunResult :=
  match c.extract with
  | .error _ => ⟨.failed, 1, [], none⟩
  | .ok () =>
    let files1 := ["audio.wav"]
    match c.transcribe with
    | .error _ => ⟨.failed, 1, files1, none⟩
    | .ok segs =>
      let files2 := files1 ++ ["transcription.json"]
      match workerTranslate cfg.useFallback c.translateAttempt segs with
      | .error _ => ⟨.failed, 1, files2, none⟩
      | .ok tsegs =>
        let files3 := files2 ++ ["translation.json"]
        match SubtitleGenerator.generate (tsegs.map TSeg.toRaw) cfg.format with
        | .error _ => ⟨.failed, 1, files3, none⟩
        | .ok lines =>
          let files4 := if cfg.keepAudio then files3 else AudioExtractor.cleanup files3
          let files5 := (files4.erase "transcription.json").erase "translation.json"
          ⟨.done, 0, files5, some lines⟩

/-! ## Helper lemmas -/

theorem lowerChar_idem (c : Char) : lowerChar (lowerChar c) = lowerChar c := by
  unfold lowerChar
  by_cases h : 65 ≤ c.toNat ∧ c.toNat ≤ 90
  · rw [if_pos h]
    obtain ⟨h1, h2⟩ := h
    generalize c.toNat = n at h1 h2
    interval_cases n <;> decide
  · simp only [if_neg h]

theorem pyLower_idem (s : String) : pyLower (pyLower s) = pyLower s := by
  unfold pyLower
  simp only [List.map_map]
  congr 1
  exact List.map_congr_left fun a _ => lowerChar_idem a

theorem globMatch_star (s : List Char) : AudioExtractor.globMatch ['*'] s = true := by
  induction s with
  | nil => simp [AudioExtractor.globMatch]
  | cons c cs ih => simp [AudioExtractor.globMatch, ih]

theorem globMatch_append_star (lit : List Char) (hstar : '*' ∉ lit) :
    ∀ s : List Char, AudioExtractor.globMatch (lit ++ ['*']) s = lit.isPrefixOf s := by
  induction lit with
  | nil => intro s; simp [List.isPrefixOf, globMatch_star]
  | cons p ps ih =>
    have hp : p ≠ '*' := fun h => hstar (h ▸ List.mem_cons_self p ps)
    have hps : '*' ∉ ps := fun h => hstar (List.mem_cons_of_mem p h)
    intro s
    cases s with
    | nil => simp [AudioExtractor.globMatch, hp, List.isPrefixOf]
    | cons c cs =>
      simp only [List.cons_append, AudioExtractor.globMatch, if_neg hp, List.isPrefixOf,
        ih hps cs]

theorem chunksAux_flatten {α : Type} (bs : Nat) (hbs : 1 ≤ bs) :
    ∀ (fuel : Nat) (l : List α), l.length ≤ fuel →
      (Translator.chunksAux bs fuel l).flatten = l := by
  intro fuel
  induction fuel with
  | zero =>
    intro l hl
    cases l with
    | nil => simp [Translator.chunksAux]
    | cons a as => simp at hl
  | succ n ih =>
    intro l hl
    cases l with
    | nil => simp [Translator.chunksAux]
    | cons a as =>
      simp only [Translator.chunksAux, List.flatten_cons]
      have hd : ((a :: as).drop bs).length ≤ n := by
        rw [List.length_drop]
        simp only [List.length_cons] at hl ⊢
        omega
      rw [ih ((a :: as).drop bs) hd]
      exact List.take_append_drop bs (a :: as)

theorem translateBatch_eq_map (tr : String → String) (b : List Seg) :
    Translator.translateBatch tr b =
      b.map (fun s => TSeg.mk s.start s.endSec (pyStrip (tr s.text)) s.text) := by
  induction b with
  | nil => rfl
  | cons s rest ih =>
    simp only [Translator.translateBatch, List.map_cons, List.zip_cons_cons] at ih ⊢
    rw [ih]

theorem translate_segments_eq_map (tr : String → String) (bs : Nat) (hbs : 1 ≤ bs)
    (segs : List Seg) :
    Translator.translate_segments tr bs segs =
      segs.map (fun s => TSeg.mk s.start s.endSec (pyStrip (tr s.text)) s.text) := by
  unfold Translator.translate_segments
  by_cases h : segs.isEmpty
  · rw [if_pos h]
    rw [List.isEmpty_iff] at h
    simp [h]
  · rw [if_neg h]
    rw [show (Translator.chunks bs segs).map (Translator.translateBatch tr) =
        (Translator.chunks bs segs).map
          (List.map (fun s => TSeg.mk s.start s.endSec (pyStrip (tr s.text)) s.text)) from
      List.map_congr_left fun b _ => translateBatch_eq_map tr b]
    rw [← List.map_flatten]
    rw [Translator.chunks, chunksAux_flatten bs hbs segs.length segs le_rfl]

theorem srtBody_spec (segs : List Seg) : ∀ idx : Nat,
    SubtitleGenerator.srtBody idx (segs.map Seg.toRaw) =
      .ok ((List.enumFrom idx segs).flatMap fun p =>
        [toString p.1,
         SubtitleGenerator.format_timestamp_srt p.2.start ++ " --> " ++
           SubtitleGenerator.format_timestamp_srt p.2.endSec,
         pyStrip p.2.text, ""]) := by
  induction segs with
  | nil => intro idx; simp [SubtitleGenerator.srtBody]
  | cons s rest ih =>
    intro idx
    simp only [List.map_cons, SubtitleGenerator.srtBody, Seg.toRaw, ih (idx + 1),
      List.enumFrom, List.flatMap_cons, List.cons_append, List.nil_append]

theorem smiBody_spec (segs : List Seg) :
    SubtitleGenerator.smiBody (segs.map Seg.toRaw) =
      .ok (segs.flatMap fun s =>
        ["<SYNC Start=" ++ toString (SubtitleGenerator.format_timestamp_smi s.start) ++ ">",
         "<P Class=KRCC>", pyStrip s.text, "</P>",
         "<SYNC Start=" ++ toString (SubtitleGenerator.format_timestamp_smi s.endSec) ++ ">",
         "<P Class=KRCC>&nbsp;</P>", ""]) := by
  induction segs with
  | nil => simp [SubtitleGenerator.smiBody]
  | cons s rest ih =>
    simp only [List.map_cons, SubtitleGenerator.smiBody, Seg.toRaw, ih,
      List.flatMap_cons, List.cons_append, List.nil_append]

theorem tsegToRaw_eq (ts : List TSeg) :
    ts.map TSeg.toRaw = (ts.map TSeg.toSeg).map Seg.toRaw := by
  simp only [List.map_map]
  exact List.map_congr_left fun a _ => rfl

theorem generate_srt_complete_ok (ts : List TSeg) (h : ts ≠ []) :
    ∃ out, SubtitleGenerator.generate_srt (ts.map TSeg.toRaw) = .ok out := by
  rw [tsegToRaw_eq]
  unfold SubtitleGenerator.generate_srt
  rw [if_neg (by simp [List.isEmpty_iff, h]), srtBody_spec (ts.map TSeg.toSeg) 1]
  exact ⟨_, rfl⟩

theorem generate_smi_complete_ok (ts : List TSeg) (h : ts ≠ []) :
    ∃ out, SubtitleGenerator.generate_smi (ts.map TSeg.toRaw) = .ok out := by
  rw [tsegToRaw_eq]
  unfold SubtitleGenerator.generate_smi
  rw [if_neg (by simp [List.isEmpty_iff, h]), smiBody_spec (ts.map TSeg.toSeg)]
  exact ⟨_, rfl⟩

/-! ## Claim theorems -/

/-- C1: for every segment list, `translate_segments` (with the translation
model as a black-box text-to-text function `tr` and a positive batch size)
preserves segment count and order, and the record at every index keeps the
input's `start`/`end`, sets `original` to the input `text`, and sets `text`
to the stripped translation of the input text. -/
theorem translate_segments_preserves (tr : String → String) (bs : Nat) (segs : List Seg)
    (hbs : 1 ≤ bs) :
    (Translator.translate_segments tr bs segs).length = segs.length ∧
    ∀ i : Nat, (Translator.translate_segments tr bs segs)[i]? =
      (segs[i]?).map fun s => TSeg.mk s.start s.endSec (pyStrip (tr s.text)) s.text := by
  rw [translate_segments_eq_map tr bs hbs segs]
  exact ⟨by simp, fun i => by simp⟩

/-- Witness for C1 at batch size 8 on a one-segment list. -/
theorem translate_segments_preserves_witness :
    1 ≤ 8 ∧
      ((Translator.translate_segments (fun t => t) 8 ([⟨0, 1, "a"⟩] : List Seg)).length =
          ([⟨0, 1, "a"⟩] : List Seg).length ∧
        ∀ i : Nat,
          (Translator.translate_segments (fun t => t) 8 ([⟨0, 1, "a"⟩] : List Seg))[i]? =
            ((([⟨0, 1, "a"⟩] : List Seg))[i]?).map fun s =>
              TSeg.mk s.start s.endSec (pyStrip ((fun t => t) s.text)) s.text) :=
  ⟨by decide,
   translate_segments_preserves (fun t => t) 8 ([⟨0, 1, "a"⟩] : List Seg) (by decide)⟩

/-- C5: a segment lacking a required field makes `generate_srt` raise — but
the raise site sits inside the blanket `try`/`except Exception` block, so
the `ValueError` documented in the function's own docstring reaches the
caller re-wrapped as an `IOError`, and no file content is produced. -/
theorem missing_field_raises_ioerror_not_valueerror :
    SubtitleGenerator.generate_srt [⟨some 0, some 1, none⟩] =
      .error (.ioErrorSrt (.missingField 1)) ∧
    (PyErr.ioErrorSrt (.missingField 1)).isIOError = true ∧
    (PyErr.ioErrorSrt (.missingField 1)).isValueError = false :=
  ⟨rfl, rfl, rfl⟩

/-- C6 (counterexample): serializing the empty segment list under the
unsupported format `"vtt"` fails with the unsupported-format `ValueError`,
not the empty-input one — `generate` lowercases and dispatches on the
format before any generator checks emptiness. -/
theorem serialize_empty_unsupported_cex :
    SubtitleGenerator.generate [] "vtt" = .error (.unsupportedFormat "vtt") ∧
    PyErr.unsupportedFormat "vtt" ≠ PyErr.emptyInput :=
  ⟨rfl, by decide⟩

/-- C6 (amended): for every format string that lowercases to a supported
identifier, serializing the empty segment list fails with the empty-input
error and never yields file content. -/
theorem serialize_empty_fails (fmt : String)
    (h : pyLower fmt = "srt" ∨ pyLower fmt = "smi") :
    SubtitleGenerator.generate [] fmt = .error .emptyInput ∧
    ∀ lines, SubtitleGenerator.generate [] fmt ≠ .ok lines := by
  rcases h with h | h <;>
    simp [SubtitleGenerator.generate, h, SubtitleGenerator.generate_srt,
      SubtitleGenerator.generate_smi]

/-- Witness for C6 at the uppercase format string `"SRT"`. -/
theorem serialize_empty_fails_witness :
    (pyLower "SRT" = "srt" ∨ pyLower "SRT" = "smi") ∧
      (SubtitleGenerator.generate [] "SRT" = .error .emptyInput ∧
        ∀ lines, SubtitleGenerator.generate [] "SRT" ≠ .ok lines) :=
  ⟨Or.inl (by decide), serialize_empty_fails "SRT" (Or.inl (by decide))⟩

/-- C8: when the resolved output path exists and the response to the
overwrite prompt is anything whose lowercase form is not `y`, the process
prints the cancellation message and exits with status 0. -/
theorem overwrite_decline_exits_zero (response : String)
    (h : pyLower response ≠ "y") :
    overwrite_check true response = .error (0, "작업이 취소되었습니다.") := by
  simp [overwrite_check, h]

/-- Witness for C8 at the response `"n"`. -/
theorem overwrite_decline_exits_zero_witness :
    pyLower "n" ≠ "y" ∧
      overwrite_check true "n" = .error (0, "작업이 취소되었습니다.") :=
  ⟨by decide, overwrite_decline_exits_zero "n" (by decide)⟩

/-- C9: `generate` matches the subtitle format case-insensitively — it
behaves identically on a format string and on its lowercased form, for
every segment list and every format string. -/
theorem generate_fmt_case_insensitive (segs : List RawSegment) (fmt : String) :
    SubtitleGenerator.generate segs fmt = SubtitleGenerator.generate segs (pyLower fmt) := by
  unfold SubtitleGenerator.generate
  rw [pyLower_idem]

/-- C10: `AudioExtractor.cleanup` removes exactly the files whose names
match the glob `audio.*` (equivalently: whose names start with `audio.`),
and keeps every other file — in particular the `transcription.json` and
`translation.json` snapshots stored in the same directory. -/
theorem cleanup_deletes_exactly_audio_glob (files : List String) :
    (∀ n : String, n ∈ AudioExtractor.cleanup files ↔
        n ∈ files ∧ "audio.".data.isPrefixOf n.data = false) ∧
    ("transcription.json" ∈ files → "transcription.json" ∈ AudioExtractor.cleanup files) ∧
    ("translation.json" ∈ files → "translation.json" ∈ AudioExtractor.cleanup files) := by
  have hg : ∀ n : String,
      AudioExtractor.globMatch "audio.*".data n.data = "audio.".data.isPrefixOf n.data := by
    intro n
    have hd : "audio.*".data = "audio.".data ++ ['*'] := by decide
    rw [hd, globMatch_append_star "audio.".data (by decide) n.data]
  have hiff : ∀ n : String, n ∈ AudioExtractor.cleanup files ↔
      n ∈ files ∧ "audio.".data.isPrefixOf n.data = false := by
    intro n
    rw [AudioExtractor.cleanup, List.mem_filter, hg n]
    simp
  exact ⟨hiff,
    fun h => (hiff _).mpr ⟨h, by decide⟩,
    fun h => (hiff _).mpr ⟨h, by decide⟩⟩

/-- Witness for C10 on a directory holding one audio file and the two
snapshots. -/
theorem cleanup_deletes_exactly_audio_glob_witness :
    "transcription.json" ∈
      AudioExtractor.cleanup ["audio.wav", "transcription.json", "translation.json"] :=
  (cleanup_deletes_exactly_audio_glob
    ["audio.wav", "transcription.json", "translation.json"]).2.1 (by simp)

/-- C2: with the fallback flag set (spec-modelled, §4.2) and the underlying
translation call failing for the whole input, the translation stage yields
one record per input record with unchanged timing and `text == original`
(the untranslated source text), and the pipeline still reaches `Done` with
exit code 0, provided extraction and transcription succeeded on a
non-empty segment list and the configured format is supported. -/
theorem fallback_passes_through_and_completes (cfg : RunConfig) (c : Collabs)
    (e : String) (segs : List Seg)
    (hfb : cfg.useFallback = true)
    (hex : c.extract = .ok ())
    (htr : c.transcribe = .ok segs)
    (hne : segs ≠ [])
    (hta : c.translateAttempt = .error e)
    (hfmt : pyLower cfg.format = "srt" ∨ pyLower cfg.format = "smi") :
    (Translator.translate_with_fallback c.translateAttempt segs).length = segs.length ∧
    (∀ i : Nat, (Translator.translate_with_fallback c.translateAttempt segs)[i]? =
        (segs[i]?).map Translator.fallbackSeg) ∧
    (∀ t ∈ Translator.translate_with_fallback c.translateAttempt segs,
        t.text = t.original) ∧
    (runPipeline cfg c).outcome = .done ∧ (runPipeline cfg c).exitCode = 0 := by
  have hfall : Translator.translate_with_fallback c.translateAttempt segs =
      segs.map Translator.fallbackSeg := by
    rw [hta]; rfl
  have hw : workerTranslate cfg.useFallback c.translateAttempt segs =
      .ok (segs.map Translator.fallbackSeg) := by
    unfold workerTranslate
    rw [if_neg (by simp [List.isEmpty_iff, hne]), hfb, hfall]
    simp
  have hmap_ne : segs.map Translator.fallbackSeg ≠ [] := by simp [hne]
  obtain ⟨out, hout⟩ : ∃ out,
      SubtitleGenerator.generate ((segs.map Translator.fallbackSeg).map TSeg.toRaw)
        cfg.format = .ok out := by
    rcases hfmt with hf | hf
    · obtain ⟨o, ho⟩ := generate_srt_complete_ok (segs.map Translator.fallbackSeg) hmap_ne
      refine ⟨o, ?_⟩
      simp only [SubtitleGenerator.generate, hf, if_pos, List.map_map] at ho ⊢
      exact ho
    · obtain ⟨o, ho⟩ := generate_smi_complete_ok (segs.map Translator.fallbackSeg) hmap_ne
      refine ⟨o, ?_⟩
      simp only [SubtitleGenerator.generate, hf, List.map_map] at ho ⊢
      simpa using ho
  refine ⟨by rw [hfall]; simp, fun i => by rw [hfall]; simp, ?_, ?_, ?_⟩
  · intro t ht
    rw [hfall] at ht
    obtain ⟨s, _, rfl⟩ := List.mem_map.mp ht
    rfl
  · simp only [runPipeline, hex, htr, hw, hout]
  · simp only [runPipeline, hex, htr, hw, hout]

/-- Witness for C2 on a one-segment transcription, the SRT format, and a
translation collaborator that always fails. -/
theorem fallback_passes_through_and_completes_witness :
    ((⟨"srt", false, true⟩ : RunConfig).useFallback = true ∧
     (⟨.ok (), .ok ([⟨0, 1, "a"⟩] : List Seg), .error "boom"⟩ : Collabs).extract = .ok () ∧
     (⟨.ok (), .ok ([⟨0, 1, "a"⟩] : List Seg), .error "boom"⟩ : Collabs).transcribe =
       .ok ([⟨0, 1, "a"⟩] : List Seg) ∧
     ([⟨0, 1, "a"⟩] : List Seg) ≠ [] ∧
     (⟨.ok (), .ok ([⟨0, 1, "a"⟩] : List Seg), .error "boom"⟩ : Collabs).translateAttempt =
       .error "boom" ∧
     (pyLower (⟨"srt", false, true⟩ : RunConfig).format = "srt" ∨
       pyLower (⟨"srt", false, true⟩ : RunConfig).format = "smi")) ∧
    ((Translator.translate_with_fallback
        (⟨.ok (), .ok ([⟨0, 1, "a"⟩] : List Seg), .error "boom"⟩ : Collabs).translateAttempt
        ([⟨0, 1, "a"⟩] : List Seg)).length = ([⟨0, 1, "a"⟩] : List Seg).length ∧
     (∀ i : Nat,
        (Translator.translate_with_fallback
          (⟨.ok (), .ok ([⟨0, 1, "a"⟩] : List Seg), .error "boom"⟩ : Collabs).translateAttempt
          ([⟨0, 1, "a"⟩] : List Seg))[i]? =
        ((([⟨0, 1, "a"⟩] : List Seg))[i]?).map Translator.fallbackSeg) ∧
     (∀ t ∈ Translator.translate_with_fallback
          (⟨.ok (), .ok ([⟨0, 1, "a"⟩] : List Seg), .error "boom"⟩ : Collabs).translateAttempt
          ([⟨0, 1, "a"⟩] : List Seg), t.text = t.original) ∧
     (runPipeline ⟨"srt", false, true⟩
        ⟨.ok (), .ok ([⟨0, 1, "a"⟩] : List Seg), .error "boom"⟩).outcome = .done ∧
     (runPipeline ⟨"srt", false, true⟩
        ⟨.ok (), .ok ([⟨0, 1, "a"⟩] : List Seg), .error "boom"⟩).exitCode = 0) :=
  ⟨⟨rfl, rfl, rfl, by decide, rfl, Or.inl (by decide)⟩,
   fallback_passes_through_and_completes ⟨"srt", false, true⟩
     ⟨.ok (), .ok ([⟨0, 1, "a"⟩] : List Seg), .error "boom"⟩ "boom"
     ([⟨0, 1, "a"⟩] : List Seg) rfl rfl rfl (by decide) rfl (Or.inl (by decide))⟩

/-- C4 (counterexample): a run whose translation step fails ends in
`Failed` with the temporary audio file and the transcription snapshot still
on disk — the `except` handler of `cli.main` exits without any cleanup, so
no best-effort deletion of temporary resources happens on the failure
path. -/
theorem pipeline_failed_keeps_temp_cex :
    (runPipeline ⟨"srt", false, false⟩
      ⟨.ok (), .ok ([⟨0, 1, "a"⟩] : List Seg), .error "translation failed"⟩).outcome =
        .failed ∧
    (runPipeline ⟨"srt", false, false⟩
      ⟨.ok (), .ok ([⟨0, 1, "a"⟩] : List Seg), .error "translation failed"⟩).tempFiles =
        ["audio.wav", "transcription.json"] ∧
    "audio.wav" ∈ (runPipeline ⟨"srt", false, false⟩
      ⟨.ok (), .ok ([⟨0, 1, "a"⟩] : List Seg), .error "translation failed"⟩).tempFiles ∧
    "transcription.json" ∈ (runPipeline ⟨"srt", false, false⟩
      ⟨.ok (), .ok ([⟨0, 1, "a"⟩] : List Seg), .error "translation failed"⟩).tempFiles :=
  ⟨rfl, rfl, by decide, by decide⟩

/-- C4 (amended): when any pipeline step fails, all later steps are aborted
(no subtitle output is produced) and the process exits with status 1, but
no cleanup runs on the failure path: the temporary audio file and the
interchange snapshots written by already-completed steps — the
transcription snapshot once transcription completed, and the translation
snapshot once the translation step completed — remain in the temp
directory. -/
theorem pipeline_failure_no_cleanup (cfg : RunConfig) (c : Collabs)
    (hfail : (runPipeline cfg c).outcome = .failed) :
    (runPipeline cfg c).exitCode = 1 ∧
    (runPipeline cfg c).output = none ∧
    (c.extract = .ok () → "audio.wav" ∈ (runPipeline cfg c).tempFiles) ∧
    (∀ segs : List Seg, c.extract = .ok () → c.transcribe = .ok segs →
        "transcription.json" ∈ (runPipeline cfg c).tempFiles) ∧
    (∀ (segs : List Seg) (ts : List TSeg), c.extract = .ok () → c.transcribe = .ok segs →
        workerTranslate cfg.useFallback c.translateAttempt segs = .ok ts →
        "translation.json" ∈ (runPipeline cfg c).tempFiles) := by
  cases hex : c.extract with
  | error msg => simp [runPipeline, hex]
  | ok u =>
    cases u
    cases htr : c.transcribe with
    | error msg => simp [runPipeline, hex, htr]
    | ok segs =>
      cases hw : workerTranslate cfg.useFallback c.translateAttempt segs with
      | error m =>
        refine ⟨by simp [runPipeline, hex, htr, hw], by simp [runPipeline, hex, htr, hw],
          fun _ => by simp [runPipeline, hex, htr, hw],
          fun segs' _ htr' => by simp [runPipeline, hex, htr, hw],
          fun segs' ts _ htr' hw' => ?_⟩
        injection htr' with hseg
        subst hseg
        rw [hw] at hw'
        exact Except.noConfusion hw'
      | ok ts0 =>
        cases hg : SubtitleGenerator.generate (ts0.map TSeg.toRaw) cfg.format with
        | error mm =>
          refine ⟨by simp [runPipeline, hex, htr, hw, hg],
            by simp [runPipeline, hex, htr, hw, hg],
            fun _ => by simp [runPipeline, hex, htr, hw, hg],
            fun segs' _ htr' => by simp [runPipeline, hex, htr, hw, hg],
            fun segs' ts _ htr' hw' => by simp [runPipeline, hex, htr, hw, hg]⟩
        | ok lines =>
          exact absurd hfail (by simp [runPipeline, hex, htr, hw, hg])

/-- Milliseconds-level evaluation: `timedelta` stores `1/512` seconds as
1953 microseconds (1953.125 rounded half-to-even down). -/
theorem totalSeconds_inv512 : totalSeconds (1/512) = 1953/1000000 := by
  have hf : ⌊(1/512 : ℚ) * 1000000⌋ = 1953 := by
    norm_num [Int.floor_eq_iff]
  unfold totalSeconds pyRoundHalfEven
  rw [hf]
  norm_num

theorem totalSeconds_zero : totalSeconds 0 = 0 := by
  unfold totalSeconds pyRoundHalfEven
  norm_num

theorem fmt_srt_zero : SubtitleGenerator.format_timestamp_srt 0 = "00:00:00,000" := by
  unfold SubtitleGenerator.format_timestamp_srt
  rw [totalSeconds_zero]
  norm_num [pymod, pyInt]
  decide

theorem fmt_srt_inv512 : SubtitleGenerator.format_timestamp_srt (1/512) = "00:00:00,001" := by
  have h1 : ⌊(1953/1000000 : ℚ) / 3600⌋ = 0 := by norm_num [Int.floor_eq_iff]
  have h0 : ⌊(1953/1000000 : ℚ)⌋ = 0 := by norm_num [Int.floor_eq_iff]
  have h60 : ⌊(1953/1000000 : ℚ) / 60⌋ = 0 := by norm_num [Int.floor_eq_iff]
  have hm3600 : pymod (1953/1000000 : ℚ) 3600 = 1953/1000000 := by
    unfold pymod; rw [h1]; ring
  have hm60 : pymod (1953/1000000 : ℚ) 60 = 1953/1000000 := by
    unfold pymod; rw [h60]; ring
  have hm1 : pymod (1953/1000000 : ℚ) 1 = 1953/1000000 := by
    unfold pymod
    rw [div_one, h0]
    ring
  have hsec : pyInt (1953/1000000 : ℚ) = 0 := by
    unfold pyInt
    rw [if_neg (by norm_num), h0]
  have hms : pyInt ((1953/1000000 : ℚ) * 1000) = 1 := by
    unfold pyInt
    rw [if_neg (by norm_num)]
    norm_num [Int.floor_eq_iff]
  unfold SubtitleGenerator.format_timestamp_srt
  rw [totalSeconds_inv512]
  simp only [h1, hm3600, h60, hm60, hm1, hsec, hms]
  decide

theorem round_millis_inv512 : pyRoundHalfEven (pymod (1/512 : ℚ) 1 * 1000) = 2 := by
  have h0 : ⌊(1/512 : ℚ)⌋ = 0 := by norm_num [Int.floor_eq_iff]
  have hm : pymod (1/512 : ℚ) 1 = 1/512 := by
    unfold pymod
    rw [div_one, h0]
    ring
  rw [hm]
  have hf : ⌊(1/512 : ℚ) * 1000⌋ = 1 := by norm_num [Int.floor_eq_iff]
  unfold pyRoundHalfEven
  rw [hf]
  norm_num

theorem fmt_smi_zero : SubtitleGenerator.format_timestamp_smi 0 = 0 := by
  unfold SubtitleGenerator.format_timestamp_smi pyInt
  norm_num

theorem fmt_smi_inv512 : SubtitleGenerator.format_timestamp_smi (1/512) = 1 := by
  unfold SubtitleGenerator.format_timestamp_smi pyInt
  rw [if_neg (by norm_num)]
  norm_num [Int.floor_eq_iff]

theorem round_smi_inv512 : pyRoundHalfEven ((1/512 : ℚ) * 1000) = 2 := by
  have hf : ⌊(1/512 : ℚ) * 1000⌋ = 1 := by norm_num [Int.floor_eq_iff]
  unfold pyRoundHalfEven
  rw [hf]
  norm_num

/-- C3 (counterexample): for the segment `⟨0, 1/512, "a"⟩` (end = 1.953125
milliseconds), `generate_srt` renders the end timestamp with millisecond
field `001` — the truncation of 1.953 — whereas the claimed formula
`round((seconds mod 1) * 1000)` yields 2, i.e. field `002`. -/
theorem srt_millis_not_round_cex :
    SubtitleGenerator.generate_srt [(⟨0, 1/512, "a"⟩ : Seg).toRaw] =
      .ok ["1", "00:00:00,000 --> 00:00:00,001", "a", ""] ∧
    pyRoundHalfEven (pymod (1/512 : ℚ) 1 * 1000) = 2 ∧
    ("00:00:00,000 --> 00:00:00,001" : String) ≠ "00:00:00,000 --> 00:00:00,002" := by
  refine ⟨?_, round_millis_inv512, by decide⟩
  show SubtitleGenerator.generate_srt (([⟨0, 1/512, "a"⟩] : List Seg).map Seg.toRaw) = _
  rw [show SubtitleGenerator.generate_srt (([⟨0, 1/512, "a"⟩] : List Seg).map Seg.toRaw) =
      match SubtitleGenerator.srtBody 1 (([⟨0, 1/512, "a"⟩] : List Seg).map Seg.toRaw) with
      | .ok lines => .ok lines
      | .error e => .error (.ioErrorSrt e) from rfl]
  rw [srtBody_spec [⟨0, 1/512, "a"⟩] 1]
  simp only [List.enumFrom, List.flatMap_cons, List.flatMap_nil, List.append_nil]
  rw [fmt_srt_zero, fmt_srt_inv512]
  rfl

/-- C3 (amended): for every non-empty segment list with complete records,
SRT serialization emits, per segment in input order, the four lines — index
(sequentially from 1 with no gaps), timing line built from the code's
timestamp formatter (milliseconds by truncation, not rounding), stripped
text, blank separator. -/
theorem generate_srt_blocks (segs : List Seg) (h : segs ≠ []) :
    SubtitleGenerator.generate_srt (segs.map Seg.toRaw) =
      .ok ((List.enumFrom 1 segs).flatMap fun p =>
        [toString p.1,
         SubtitleGenerator.format_timestamp_srt p.2.start ++ " --> " ++
           SubtitleGenerator.format_timestamp_srt p.2.endSec,
         pyStrip p.2.text, ""]) := by
  unfold SubtitleGenerator.generate_srt
  rw [if_neg (by simp [List.isEmpty_iff, h]), srtBody_spec segs 1]

/-- Witness for C3 on a one-segment list. -/
theorem generate_srt_blocks_witness :
    ([⟨0, 1, "a"⟩] : List Seg) ≠ [] ∧
    SubtitleGenerator.generate_srt (([⟨0, 1, "a"⟩] : List Seg).map Seg.toRaw) =
      .ok ((List.enumFrom 1 ([⟨0, 1, "a"⟩] : List Seg)).flatMap fun p =>
        [toString p.1,
         SubtitleGenerator.format_timestamp_srt p.2.start ++ " --> " ++
           SubtitleGenerator.format_timestamp_srt p.2.endSec,
         pyStrip p.2.text, ""]) :=
  ⟨by decide, generate_srt_blocks ([⟨0, 1, "a"⟩] : List Seg) (by decide)⟩

/-- C7 (counterexample): for the segment `⟨0, 1/512, "a"⟩`, `generate_smi`
opens the closing sync block at `Start=1` (truncation of 1.953125), whereas
the claimed `round(end*1000)` yields 2. -/
theorem smi_sync_not_round_cex :
    SubtitleGenerator.generate_smi [(⟨0, 1/512, "a"⟩ : Seg).toRaw] =
      .ok (SubtitleGenerator.smiHeader ++
        ["<SYNC Start=0>", "<P Class=KRCC>", "a", "</P>",
         "<SYNC Start=1>", "<P Class=KRCC>&nbsp;</P>", ""] ++
        ["</BODY>", "</SAMI>"]) ∧
    pyRoundHalfEven ((1/512 : ℚ) * 1000) = 2 ∧
    SubtitleGenerator.format_timestamp_smi (1/512) = 1 := by
  refine ⟨?_, round_smi_inv512, fmt_smi_inv512⟩
  show SubtitleGenerator.generate_smi (([⟨0, 1/512, "a"⟩] : List Seg).map Seg.toRaw) = _
  rw [show SubtitleGenerator.generate_smi (([⟨0, 1/512, "a"⟩] : List Seg).map Seg.toRaw) =
      match SubtitleGenerator.smiBody (([⟨0, 1/512, "a"⟩] : List Seg).map Seg.toRaw) with
      | .ok body => .ok (SubtitleGenerator.smiHeader ++ body ++ ["</BODY>", "</SAMI>"])
      | .error e => .error (.ioErrorSmi e) from rfl]
  rw [smiBody_spec [⟨0, 1/512, "a"⟩]]
  simp only [List.flatMap_cons, List.flatMap_nil, List.append_nil]
  rw [fmt_smi_zero, fmt_smi_inv512]
  rfl

/-- C7 (amended): for every non-empty segment list with complete records,
SMI serialization emits the fixed header/style block, then per segment a
sync block at the code's millisecond timestamp (truncation of
`seconds*1000`, not rounding) with the stripped text, a closing sync block
with the `&nbsp;` placeholder, and finally the footer. -/
theorem generate_smi_blocks (segs : List Seg) (h : segs ≠ []) :
    SubtitleGenerator.generate_smi (segs.map Seg.toRaw) =
      .ok (SubtitleGenerator.smiHeader ++
        (segs.flatMap fun s =>
          ["<SYNC Start=" ++ toString (SubtitleGenerator.format_timestamp_smi s.start) ++ ">",
           "<P Class=KRCC>", pyStrip s.text, "</P>",
           "<SYNC Start=" ++ toString (SubtitleGenerator.format_timestamp_smi s.endSec) ++ ">",
           "<P Class=KRCC>&nbsp;</P>", ""]) ++
        ["</BODY>", "</SAMI>"]) := by
  unfold SubtitleGenerator.generate_smi
  rw [if_neg (by simp [List.isEmpty_iff, h]), smiBody_spec segs]

/-- Witness for C7 on a one-segment list. -/
theorem generate_smi_blocks_witness :
    ([⟨0, 1, "a"⟩] : List Seg) ≠ [] ∧
    SubtitleGenerator.generate_smi (([⟨0, 1, "a"⟩] : List Seg).map Seg.toRaw) =
      .ok (SubtitleGenerator.smiHeader ++
        (([⟨0, 1, "a"⟩] : List Seg).flatMap fun s =>
          ["<SYNC Start=" ++ toString (SubtitleGenerator.format_timestamp_smi s.start) ++ ">",
           "<P Class=KRCC>", pyStrip s.text, "</P>",
           "<SYNC Start=" ++ toString (SubtitleGenerator.format_timestamp_smi s.endSec) ++ ">",
           "<P Class=KRCC>&nbsp;</P>", ""]) ++
        ["</BODY>", "</SAMI>"]) :=
  ⟨by decide, generate_smi_blocks ([⟨0, 1, "a"⟩] : List Seg) (by decide)⟩

/-- Witness for C4 on a run whose translation step fails. -/
theorem pipeline_failure_no_cleanup_witness :
    (runPipeline ⟨"srt", false, false⟩
      ⟨.ok (), .ok ([⟨0, 1, "a"⟩] : List Seg), .error "bad"⟩).outcome = .failed ∧
    ((runPipeline ⟨"srt", false, false⟩
        ⟨.ok (), .ok ([⟨0, 1, "a"⟩] : List Seg), .error "bad"⟩).exitCode = 1 ∧
     (runPipeline ⟨"srt", false, false⟩
        ⟨.ok (), .ok ([⟨0, 1, "a"⟩] : List Seg), .error "bad"⟩).output = none ∧
     ((⟨.ok (), .ok ([⟨0, 1, "a"⟩] : List Seg), .error "bad"⟩ : Collabs).extract = .ok () →
        "audio.wav" ∈ (runPipeline ⟨"srt", false, false⟩
          ⟨.ok (), .ok ([⟨0, 1, "a"⟩] : List Seg), .error "bad"⟩).tempFiles) ∧
     (∀ segs : List Seg,
        (⟨.ok (), .ok ([⟨0, 1, "a"⟩] : List Seg), .error "bad"⟩ : Collabs).extract = .ok () →
        (⟨.ok (), .ok ([⟨0, 1, "a"⟩] : List Seg), .error "bad"⟩ : Collabs).transcribe =
          .ok segs →
        "transcription.json" ∈ (runPipeline ⟨"srt", false, false⟩
          ⟨.ok (), .ok ([⟨0, 1, "a"⟩] : List Seg), .error "bad"⟩).tempFiles) ∧
     (∀ (segs : List Seg) (ts : List TSeg),
        (⟨.ok (), .ok ([⟨0, 1, "a"⟩] : List Seg), .error "bad"⟩ : Collabs).extract = .ok () →
        (⟨.ok (), .ok ([⟨0, 1, "a"⟩] : List Seg), .error "bad"⟩ : Collabs).transcribe =
          .ok segs →
        workerTranslate (⟨"srt", false, false⟩ : RunConfig).useFallback
          (⟨.ok (), .ok ([⟨0, 1, "a"⟩] : List Seg), .error "bad"⟩ : Collabs).translateAttempt
          segs = .ok ts →
        "translation.json" ∈ (runPipeline ⟨"srt", false, false⟩
          ⟨.ok (), .ok ([⟨0, 1, "a"⟩] : List Seg), .error "bad"⟩).tempFiles)) :=
  ⟨rfl,
   pipeline_failure_no_cleanup ⟨"srt", false, false⟩
     ⟨.ok (), .ok ([⟨0, 1, "a"⟩] : List Seg), .error "bad"⟩ rfl⟩

end AutoKR
